import Mathlib

/-!
Verification of the core amortization logic of `app.py` (Parcelator).

The Python source works on floats; the embedding models a float as either a
rational number or NaN (`PyFloat`).  Infinities never arise in any property
considered here and are not modelled.  Pandas/date presentation code is out of
scope; the calendar-label column of the emitted data frame (a pure string
formatting of a session start date, never read by any computation) is omitted
from the row model.  Python exceptions (the `ZeroDivisionError` raised by
`saldo / prazo_meses` when `prazo_meses == 0`) are modelled with `Except`.
-/

namespace App

/-- A Python float as used by the `Aporte` fields (`allow_inf_nan`): either a
rational value or NaN.  NaN compares unequal to everything and is detected by
`math.isnan`. -/
inductive PyFloat where
  | num (q : ℚ)
  | nan
deriving DecidableEq, Repr

/-- Python `float == int` comparison: exact numeric equality, always false for
NaN.  This is the `a.mes == mes` test of the extra-payment filter. -/
def fv_eq_nat : PyFloat → ℕ → Bool
  | .num q, n => decide (q = (n : ℚ))
  | .nan, _ => false

/-- `class Payer(BaseModel)`: name, down payment (`entrada`) and derived
outstanding balance (`saldo_devedor`, default 0). -/
structure Payer where
  payer : String
  entrada : ℚ
  saldo_devedor : ℚ := 0
deriving DecidableEq, Repr

/-- `class Aporte(BaseModel)`: an extra payment at float month `mes` for
optional payer `pagador` of float amount `valor`. -/
structure Aporte where
  mes : PyFloat
  pagador : Option String
  valor : PyFloat
deriving DecidableEq, Repr

/-- One row of the per-payer result data frame, columns
`Pagador, Mês_i, Saldo Devedor, Amortização, Juros, Prestação` (the formatted
calendar-label column is omitted, see the file header). -/
structure Row where
  pagador : String
  mes_i : ℕ
  saldo_devedor : ℚ
  amortizacao : ℚ
  juros : ℚ
  prestacao : ℚ
deriving DecidableEq, Repr

/-- Python `p.payer == a.pagador` where `a.pagador : Optional[str]`:
`None` never equals a string. -/
def pagador_matches (payer : String) : Option String → Bool
  | some s => payer == s
  | none => false

/-- `aportes_mes = [a for a in aportes if a.mes == mes and p.payer == a.pagador]`. -/
def aportes_mes (aportes : List Aporte) (payer : String) (mes : ℕ) : List Aporte :=
  aportes.filter fun a => fv_eq_nat a.mes mes && pagador_matches payer a.pagador

/-- The inner loop `for aporte in aportes_mes: if not math.isnan(aporte.valor):
saldo_atual -= aporte.valor`. -/
def applyAportes (saldo : ℚ) : List Aporte → ℚ
  | [] => saldo
  | a :: rest =>
    match a.valor with
    | .nan => applyAportes saldo rest
    | .num v => applyAportes (saldo - v) rest

/-- The balance of one month before the zero clamp:
`saldo_atual -= amortizacao_mensal` followed by the extra-payment loop. -/
def pre_clamp (payer : String) (amort : ℚ) (aportes : List Aporte) (mes : ℕ)
    (saldo : ℚ) : ℚ :=
  applyAportes (saldo - amort) (aportes_mes aportes payer mes)

/-- The balance at the end of one month: the pre-clamp balance, floored at 0
(`if saldo_atual < 0: saldo_atual = 0`). -/
def step_saldo (payer : String) (amort : ℚ) (aportes : List Aporte) (mes : ℕ)
    (saldo : ℚ) : ℚ :=
  let s := pre_clamp payer amort aportes mes saldo
  if s < 0 then 0 else s

/-- The month loop `for mes in range(1, prazo_meses + 1)` of
`calculate_individual_sac_tables`, as a recursion on the number of remaining
months: `k` months remain, the current month is `mes`, the carried balance is
`saldo`.  Each iteration computes `juros_mes = saldo_atual * taxa`,
`prestacao_mes = amortizacao + juros_mes`, steps the balance and emits a row
whose `saldo_devedor` is the post-clamp balance. -/
def sac_rows (payer : String) (amort taxa : ℚ) (aportes : List Aporte) :
    ℕ → ℕ → ℚ → List Row
  | 0, _, _ => []
  | k + 1, mes, saldo =>
    let juros := saldo * taxa
    let prestacao := amort + juros
    let saldo' := step_saldo payer amort aportes mes saldo
    { pagador := payer, mes_i := mes, saldo_devedor := saldo',
      amortizacao := amort, juros := juros, prestacao := prestacao } ::
      sac_rows payer amort taxa aportes k (mes + 1) saldo'

/-- The balance carried by the loop after iterating `i` months starting at
month `mes` with balance `saldo`. -/
def saldo_from (payer : String) (amort : ℚ) (aportes : List Aporte) :
    ℕ → ℚ → ℕ → ℚ
  | _, saldo, 0 => saldo
  | mes, saldo, i + 1 =>
    saldo_from payer amort aportes (mes + 1)
      (step_saldo payer amort aportes mes saldo) i

/-- The pre-clamp balance the loop computes at month `m` (months are 1-based,
so the balance entering month `m` is the one after `m - 1` iterations from
month 1). -/
def pre_clamp_at (payer : String) (amort : ℚ) (aportes : List Aporte)
    (saldo0 : ℚ) (m : ℕ) : ℚ :=
  pre_clamp payer amort aportes m
    (saldo_from payer amort aportes 1 saldo0 (m - 1))

/-- The full table of one payer `p`: fixed amortization
`amortizacao_mensal = p.saldo_devedor / prazo_meses`, months
`range(1, prazo_meses + 1)` (empty when `prazo_meses <= 0`), starting balance
`p.saldo_devedor`. -/
def payer_rows (taxa_mensal : ℚ) (prazo_meses : ℤ) (aportes : List Aporte)
    (p : Payer) : List Row :=
  sac_rows p.payer (p.saldo_devedor / (prazo_meses : ℚ)) taxa_mensal aportes
    prazo_meses.toNat 1 p.saldo_devedor

/-- `calculate_individual_sac_tables(saldos_devedores, taxa_juros_anual,
prazo_meses, aportes)`.  `taxa_juros_mensal = (taxa_juros_anual / 100) / 12`.
The division `p.saldo_devedor / prazo_meses` raises `ZeroDivisionError` when
`prazo_meses == 0`; it is evaluated inside the payer loop, hence only when at
least one payer exists.  The Python result is a dict keyed by payer name,
modelled as the list of (name, rows) pairs in insertion order (on duplicate
names the later entry is the one a dict lookup would see). -/
def calculate_individual_sac_tables (saldos_devedores : List Payer)
    (taxa_juros_anual : ℚ) (prazo_meses : ℤ) (aportes : List Aporte) :
    Except String (List (String × List Row)) :=
  let taxa_juros_mensal := taxa_juros_anual / 100 / 12
  if prazo_meses = 0 ∧ saldos_devedores ≠ [] then .error "ZeroDivisionError"
  else .ok (saldos_devedores.map fun p =>
    (p.payer, payer_rows taxa_juros_mensal prazo_meses aportes p))

/-- The per-payer loop of `update_saldo`, which computes
`saldo = (saldo_total / len(payers)) - e.entrada` for each payer: the division
by `len(payers)` is evaluated once per iteration, so a `ZeroDivisionError`
could only arise inside a loop iteration. -/
def update_saldo_loop (saldo_total : ℚ) (payers : List Payer) :
    List Payer → Except String (List Payer)
  | [] => .ok []
  | e :: rest =>
    if payers.length = 0 then .error "ZeroDivisionError"
    else
      match update_saldo_loop saldo_total payers rest with
      | .error msg => .error msg
      | .ok tail =>
        .ok ({ e with saldo_devedor := saldo_total / (payers.length : ℚ) - e.entrada } :: tail)

/-- `update_saldo(payers)`: recomputes every payer's `saldo_devedor` from the
session-wide `saldo_total` (passed explicitly here) and returns the updated
list. -/
def update_saldo (saldo_total : ℚ) (payers : List Payer) :
    Except String (List Payer) :=
  update_saldo_loop saldo_total payers payers

/-- `df[df["Saldo Devedor"] > 0]["Mês_i"].max()` of `main`: the maximum
`Mês_i` among the rows with positive balance.  Pandas' `max` of an empty
series is NaN, the missing-value sentinel, modelled as `⊥` of `WithBot ℕ`. -/
def last_non_zero_month (rows : List Row) : WithBot ℕ :=
  ((rows.filter fun r => decide (0 < r.saldo_devedor)).map Row.mes_i).maximum

/-- The session state read by `calculate_individual_sac_tables`:
`st.session_state.saldos_devedores` and `st.session_state.aportes`. -/
structure SessionState where
  saldos_devedores : List Payer
  aportes : List Aporte

/-- The engine call with explicit state passing: the translated body reads the
ledger and the schedule but contains no assignment to either (contrast
`update_saldo`, which writes `e.saldo_devedor`), so the state threads through
unchanged. -/
def calculate_individual_sac_tables_st (s : SessionState)
    (taxa_juros_anual : ℚ) (prazo_meses : ℤ) :
    SessionState × Except String (List (String × List Row)) :=
  (s, calculate_individual_sac_tables s.saldos_devedores taxa_juros_anual
    prazo_meses s.aportes)

/-! ### Shared lemmas about the month loop -/

theorem applyAportes_append (s : ℚ) (l1 l2 : List Aporte) :
    applyAportes s (l1 ++ l2) = applyAportes (applyAportes s l1) l2 := by
  induction l1 generalizing s with
  | nil => rfl
  | cons a rest ih =>
    cases hv : a.valor <;> simp [applyAportes, hv, ih]

theorem applyAportes_le (s : ℚ) (l : List Aporte)
    (h : ∀ a ∈ l, ∀ v, a.valor = PyFloat.num v → 0 ≤ v) :
    applyAportes s l ≤ s := by
  induction l generalizing s with
  | nil => exact le_refl s
  | cons a rest ih =>
    cases hv : a.valor with
    | nan =>
      simp only [applyAportes, hv]
      exact ih s fun b hb => h b (List.mem_cons_of_mem a hb)
    | num v =>
      simp only [applyAportes, hv]
      calc applyAportes (s - v) rest ≤ s - v :=
            ih (s - v) fun b hb => h b (List.mem_cons_of_mem a hb)
        _ ≤ s := by
            have hv0 : 0 ≤ v := h a (List.mem_cons_self a rest) v hv
            linarith

theorem sac_rows_length (payer : String) (amort taxa : ℚ)
    (aportes : List Aporte) :
    ∀ (k mes : ℕ) (saldo : ℚ),
      (sac_rows payer amort taxa aportes k mes saldo).length = k := by
  intro k
  induction k with
  | zero => intro mes saldo; rfl
  | succ k ih => intro mes saldo; simp [sac_rows, ih]

theorem saldo_from_succ (payer : String) (amort : ℚ) (aportes : List Aporte) :
    ∀ (i mes : ℕ) (saldo : ℚ),
      saldo_from payer amort aportes mes saldo (i + 1) =
        step_saldo payer amort aportes (mes + i)
          (saldo_from payer amort aportes mes saldo i) := by
  intro i
  induction i with
  | zero => intro mes saldo; simp [saldo_from]
  | succ i ih =>
    intro mes saldo
    have h1 : saldo_from payer amort aportes mes saldo (i + 1 + 1) =
        saldo_from payer amort aportes (mes + 1)
          (step_saldo payer amort aportes mes saldo) (i + 1) := rfl
    rw [h1, ih]
    have h2 : mes + 1 + i = mes + (i + 1) := by omega
    rw [h2]
    rfl

theorem sac_rows_getElem? (payer : String) (amort taxa : ℚ)
    (aportes : List Aporte) :
    ∀ (k i mes : ℕ) (saldo : ℚ), i < k →
      (sac_rows payer amort taxa aportes k mes saldo)[i]? =
        some { pagador := payer, mes_i := mes + i,
               saldo_devedor := step_saldo payer amort aportes (mes + i)
                 (saldo_from payer amort aportes mes saldo i),
               amortizacao := amort,
               juros := saldo_from payer amort aportes mes saldo i * taxa,
               prestacao :=
                 amort + saldo_from payer amort aportes mes saldo i * taxa } := by
  intro k
  induction k with
  | zero => intro i mes saldo hi; omega
  | succ k ih =>
    intro i mes saldo hi
    cases i with
    | zero => simp [sac_rows, saldo_from, step_saldo]
    | succ i =>
      have h1 :
          (sac_rows payer amort taxa aportes (k + 1) mes saldo)[i + 1]? =
            (sac_rows payer amort taxa aportes k (mes + 1)
              (step_saldo payer amort aportes mes saldo))[i]? := by
        simp [sac_rows]
      rw [h1, ih i (mes + 1) (step_saldo payer amort aportes mes saldo)
        (by omega)]
      have h2 : mes + 1 + i = mes + (i + 1) := by omega
      rw [h2]
      rfl

theorem sac_rows_congr (payer : String) (amort taxa : ℚ) (A B : List Aporte) :
    ∀ (k mes : ℕ) (saldo : ℚ),
      (∀ j, mes ≤ j → j < mes + k → ∀ s : ℚ,
        applyAportes s (aportes_mes A payer j) =
          applyAportes s (aportes_mes B payer j)) →
      sac_rows payer amort taxa A k mes saldo =
        sac_rows payer amort taxa B k mes saldo := by
  intro k
  induction k with
  | zero => intro mes saldo _; rfl
  | succ k ih =>
    intro mes saldo h
    have hstep : step_saldo payer amort A mes saldo =
        step_saldo payer amort B mes saldo := by
      unfold step_saldo pre_clamp
      rw [h mes (le_refl mes) (by omega) (saldo - amort)]
    simp only [sac_rows]
    rw [hstep]
    congr 1
    exact ih (mes + 1) _ fun j hj1 hj2 s => h j (by omega) (by omega) s

theorem aportes_mes_append (S1 S2 : List Aporte) (payer : String) (j : ℕ) :
    aportes_mes (S1 ++ S2) payer j =
      aportes_mes S1 payer j ++ aportes_mes S2 payer j := by
  unfold aportes_mes
  exact List.filter_append S1 S2

theorem aportes_mes_middle (S1 S2 : List Aporte) (a : Aporte) (payer : String)
    (j : ℕ) :
    aportes_mes (S1 ++ a :: S2) payer j =
      aportes_mes S1 payer j ++
        ((if fv_eq_nat a.mes j && pagador_matches payer a.pagador then [a]
          else []) ++ aportes_mes S2 payer j) := by
  unfold aportes_mes
  rw [List.filter_append, List.filter_cons]
  by_cases hp : (fv_eq_nat a.mes j && pagador_matches payer a.pagador) = true
  · simp [hp]
  · simp [hp]

theorem applyAportes_mes_drop (S1 S2 : List Aporte) (a : Aporte)
    (payer : String) (j : ℕ)
    (h : (fv_eq_nat a.mes j && pagador_matches payer a.pagador) = false ∨
      a.valor = PyFloat.nan) (s : ℚ) :
    applyAportes s (aportes_mes (S1 ++ a :: S2) payer j) =
      applyAportes s (aportes_mes (S1 ++ S2) payer j) := by
  rw [aportes_mes_middle, aportes_mes_append, applyAportes_append,
    applyAportes_append, applyAportes_append]
  congr 1
  rcases h with h | h
  · rw [h]; rfl
  · by_cases hp :
      (fv_eq_nat a.mes j && pagador_matches payer a.pagador) = true
    · rw [hp]
      simp only [if_true]
      simp [applyAportes, h]
    · simp only [Bool.not_eq_true] at hp
      rw [hp]
      rfl

theorem payer_rows_congr (taxa : ℚ) (prazo : ℤ) (A B : List Aporte) (p : Payer)
    (h : ∀ j : ℕ, 1 ≤ j → (j : ℤ) ≤ prazo → ∀ s : ℚ,
      applyAportes s (aportes_mes A p.payer j) =
        applyAportes s (aportes_mes B p.payer j)) :
    payer_rows taxa prazo A p = payer_rows taxa prazo B p := by
  unfold payer_rows
  apply sac_rows_congr
  intro j hj1 hj2 s
  exact h j hj1 (by omega) s

theorem update_saldo_loop_ok (saldo_total : ℚ) (payers : List Payer)
    (hne : payers.length ≠ 0) :
    ∀ l : List Payer,
      update_saldo_loop saldo_total payers l =
        .ok (l.map fun e =>
          { e with saldo_devedor :=
              saldo_total / (payers.length : ℚ) - e.entrada }) := by
  intro l
  induction l with
  | nil => rfl
  | cons e rest ih =>
    unfold update_saldo_loop
    rw [if_neg hne, ih]
    rfl

theorem pagador_matches_false (payer : String) (o : Option String)
    (h : o ≠ some payer) : pagador_matches payer o = false := by
  cases o with
  | none => rfl
  | some s =>
    have hne : payer ≠ s := fun he => h (by rw [he])
    exact beq_eq_false_iff_ne.mpr hne

theorem aportes_mes_nil_of_unmatched (aportes : List Aporte) (payer : String)
    (h : ∀ a ∈ aportes, a.pagador ≠ some payer) (mes : ℕ) :
    aportes_mes aportes payer mes = [] := by
  unfold aportes_mes
  apply List.filter_eq_nil_iff.mpr
  intro a ha
  rw [pagador_matches_false payer a.pagador (h a ha)]
  simp

theorem sac_rows_chain (payer : String) (amort taxa : ℚ)
    (aportes : List Aporte) (hamort : 0 ≤ amort)
    (hap : ∀ mes, aportes_mes aportes payer mes = []) :
    ∀ (k mes : ℕ) (saldo : ℚ), 0 ≤ saldo →
      List.Chain' (fun a b : ℚ => b ≤ a)
        (saldo ::
          (sac_rows payer amort taxa aportes k mes saldo).map
            Row.saldo_devedor) := by
  intro k
  induction k with
  | zero => intro mes saldo _; simp [sac_rows]
  | succ k ih =>
    intro mes saldo hs
    have hstep : step_saldo payer amort aportes mes saldo ≤ saldo ∧
        0 ≤ step_saldo payer amort aportes mes saldo := by
      unfold step_saldo pre_clamp
      rw [hap mes]
      simp only [applyAportes]
      constructor
      · split <;> linarith
      · split <;> linarith
    simp only [sac_rows, List.map_cons]
    exact List.chain'_cons.mpr ⟨hstep.1, ih (mes + 1) _ hstep.2⟩

/-- C1 (counterexample): with `term_months = -1` (which is `<= 0`) and one
payer, the engine raises no error: it silently returns a table with an empty
row sequence for the payer. -/
theorem engine_negative_term_silently_ok :
    calculate_individual_sac_tables [⟨"Pagador 1", 50000, 100000⟩] (15 / 2)
        (-1) [] = .ok [("Pagador 1", [])] := by
  norm_num [calculate_individual_sac_tables, payer_rows, sac_rows]

/-- C1 (amended): the engine fails (with Python's `ZeroDivisionError` from the
fixed-amortization division, not a dedicated invalid-parameter error) exactly
when `term_months = 0` and the payer list is non-empty; for `term_months < 0`
(and for `term_months = 0` with no payers) it silently returns a table with an
empty row sequence per payer instead of signalling an error. -/
theorem engine_nonpositive_term_behavior (payers : List Payer) (taxa : ℚ)
    (prazo : ℤ) (aportes : List Aporte) :
    (prazo = 0 → payers ≠ [] →
      calculate_individual_sac_tables payers taxa prazo aportes =
        .error "ZeroDivisionError") ∧
    (prazo < 0 →
      calculate_individual_sac_tables payers taxa prazo aportes =
        .ok (payers.map fun p => (p.payer, []))) ∧
    (prazo = 0 → payers = [] →
      calculate_individual_sac_tables payers taxa prazo aportes =
        .ok []) := by
  refine ⟨?_, ?_, ?_⟩
  · intro h0 hne
    unfold calculate_individual_sac_tables
    rw [if_pos ⟨h0, hne⟩]
  · intro hneg
    unfold calculate_individual_sac_tables
    rw [if_neg (by omega : ¬(prazo = 0 ∧ payers ≠ []))]
    have hrows : ∀ p : Payer,
        payer_rows (taxa / 100 / 12) prazo aportes p = [] := by
      intro p
      unfold payer_rows
      rw [(by omega : prazo.toNat = 0)]
      rfl
    simp only [hrows]
  · intro _ hempty
    subst hempty
    unfold calculate_individual_sac_tables
    rw [if_neg (by simp : ¬(prazo = 0 ∧ ([] : List Payer) ≠ []))]
    rfl

/-- Witness for C1 (amended): at `term_months = 0` with one payer the engine
fails with `ZeroDivisionError`; at `term_months = -2` it silently returns an
empty table for the payer; at `term_months = 0` with no payers it silently
returns an empty table with no error. -/
theorem engine_nonpositive_term_behavior_witness :
    calculate_individual_sac_tables [⟨"Pagador 1", 50000, 100000⟩] 0 0 [] =
        .error "ZeroDivisionError" ∧
    calculate_individual_sac_tables [⟨"Pagador 1", 50000, 100000⟩] 0 (-2) [] =
        .ok [("Pagador 1", [])] ∧
    calculate_individual_sac_tables [] 0 0 [] = .ok [] :=
  ⟨(engine_nonpositive_term_behavior _ 0 0 _).1 rfl (by simp),
   (engine_nonpositive_term_behavior _ 0 (-2) _).2.1 (by norm_num),
   (engine_nonpositive_term_behavior [] 0 0 []).2.2 rfl rfl⟩

/-- C2 (counterexample): with a negative starting balance (permitted by the
data model: a down payment exceeding the equal share), `term_months = 2` and
no extra payments at all, the reported balance sequence is `[0, 50]`, which is
not non-increasing: the clamp fires at month 1 and the negative fixed
amortization then pushes the balance back up. -/
theorem sac_not_monotonic_on_negative_balance :
    calculate_individual_sac_tables [⟨"P", 0, -100⟩] 0 2 [] =
      .ok [("P", [⟨"P", 1, 0, -50, 0, -50⟩, ⟨"P", 2, 50, -50, 0, -50⟩])] ∧
    ¬ List.Chain' (fun a b : ℚ => b ≤ a) [0, 50] := by
  constructor
  · simp [calculate_individual_sac_tables, payer_rows, sac_rows, step_saldo,
      pre_clamp, aportes_mes, applyAportes]
    norm_num
  · intro h
    have h50 : (50 : ℚ) ≤ 0 := (List.chain'_cons.mp h).1
    norm_num at h50

/-- C2 (amended): for every payer with a NON-NEGATIVE starting balance,
`term_months >= 1` and no extra-payment entry naming that payer, the engine
succeeds and that payer's `balance_after` sequence is non-increasing month
over month.  (The non-negativity hypothesis is forced by the
counterexample: a negative starting balance makes the sequence increase
after the clamp.) -/
theorem sac_balance_monotonic (payers : List Payer) (taxa : ℚ) (prazo : ℤ)
    (aportes : List Aporte) (p : Payer) (hp : p ∈ payers) (h1 : 1 ≤ prazo)
    (h0 : 0 ≤ p.saldo_devedor)
    (hap : ∀ a ∈ aportes, a.pagador ≠ some p.payer) :
    calculate_individual_sac_tables payers taxa prazo aportes =
      .ok (payers.map fun q =>
        (q.payer, payer_rows (taxa / 100 / 12) prazo aportes q)) ∧
    List.Chain' (fun a b : ℚ => b ≤ a)
      ((payer_rows (taxa / 100 / 12) prazo aportes p).map
        Row.saldo_devedor) := by
  constructor
  · unfold calculate_individual_sac_tables
    rw [if_neg (by omega : ¬(prazo = 0 ∧ payers ≠ []))]
  · have hq : (0 : ℚ) ≤ (prazo : ℚ) := by
      have : (0 : ℤ) ≤ prazo := by omega
      exact_mod_cast this
    have hamort : 0 ≤ p.saldo_devedor / (prazo : ℚ) := div_nonneg h0 hq
    have hnil := aportes_mes_nil_of_unmatched aportes p.payer hap
    exact (sac_rows_chain p.payer _ _ aportes hamort hnil prazo.toNat 1
      p.saldo_devedor h0).tail

/-- Witness for C2 (amended): one payer with balance 100000, rate 0, term 2,
no extra payments. -/
theorem sac_balance_monotonic_witness :
    calculate_individual_sac_tables [⟨"Pagador 1", 50000, 100000⟩] 0 2 [] =
      .ok ([⟨"Pagador 1", 50000, 100000⟩].map fun q =>
        (q.payer, payer_rows (0 / 100 / 12) 2 [] q)) ∧
    List.Chain' (fun a b : ℚ => b ≤ a)
      ((payer_rows (0 / 100 / 12) 2 []
        (⟨"Pagador 1", 50000, 100000⟩ : Payer)).map Row.saldo_devedor) :=
  sac_balance_monotonic _ _ _ _ _ (by simp) (by norm_num) (by norm_num)
    (by simp)

/-- C6 (counterexample): `update_saldo` on the empty payer list does not fail:
the division by `len(payers)` sits inside the per-payer loop, which never runs,
so the call silently returns an empty, error-free result. -/
theorem update_saldo_empty_no_error : update_saldo 450000 [] = Except.ok [] :=
  rfl

/-- C6 (amended): for every payer list, `update_saldo` succeeds and sets each
payer's `saldo_devedor` to `saldo_total / len(payers) - entrada` (negative
results permitted); on the empty list it returns the empty list without
error, because the division is only evaluated inside the per-payer loop. -/
theorem update_saldo_splits (saldo_total : ℚ) (payers : List Payer) :
    update_saldo saldo_total payers =
      .ok (payers.map fun e =>
        { e with saldo_devedor :=
            saldo_total / (payers.length : ℚ) - e.entrada }) := by
  cases payers with
  | nil => rfl
  | cons p ps =>
    exact update_saldo_loop_ok saldo_total (p :: ps) (by simp) (p :: ps)

theorem pagador_matches_true (payer : String) (o : Option String)
    (h : pagador_matches payer o = true) : o = some payer := by
  cases o with
  | none => simp [pagador_matches] at h
  | some s =>
    have hs : payer = s := eq_of_beq h
    rw [hs]

theorem aportes_mes_valor_nonneg (aportes : List Aporte) (payer : String)
    (hval : ∀ a ∈ aportes, a.pagador = some payer →
      ∀ v, a.valor = PyFloat.num v → 0 ≤ v) (mes : ℕ) :
    ∀ a ∈ aportes_mes aportes payer mes, ∀ v, a.valor = PyFloat.num v →
      0 ≤ v := by
  intro a ha
  have hmem := List.mem_filter.mp ha
  have hmatch : pagador_matches payer a.pagador = true :=
    (Bool.and_eq_true _ _).mp hmem.2 |>.2
  exact hval a hmem.1 (pagador_matches_true payer a.pagador hmatch)

theorem step_saldo_zero (payer : String) (amort : ℚ) (aportes : List Aporte)
    (mes : ℕ) (hamort : 0 ≤ amort)
    (hval : ∀ a ∈ aportes_mes aportes payer mes, ∀ v,
      a.valor = PyFloat.num v → 0 ≤ v) :
    step_saldo payer amort aportes mes 0 = 0 := by
  unfold step_saldo pre_clamp
  have h1 : applyAportes (0 - amort) (aportes_mes aportes payer mes) ≤
      0 - amort := applyAportes_le _ _ hval
  by_cases hlt :
    applyAportes (0 - amort) (aportes_mes aportes payer mes) < 0
  · simp only [hlt, if_true]
  · simp only [hlt, if_false]
    linarith [h1, not_lt.mp hlt]

theorem saldo_from_zero_stays (payer : String) (amort : ℚ)
    (aportes : List Aporte) (hamort : 0 ≤ amort)
    (hval : ∀ a ∈ aportes, a.pagador = some payer →
      ∀ v, a.valor = PyFloat.num v → 0 ≤ v) :
    ∀ (d mes : ℕ), saldo_from payer amort aportes mes 0 d = 0 := by
  intro d
  induction d with
  | zero => intro mes; rfl
  | succ d ih =>
    intro mes
    have hz : step_saldo payer amort aportes mes 0 = 0 :=
      step_saldo_zero payer amort aportes mes hamort
        (aportes_mes_valor_nonneg aportes payer hval mes)
    show saldo_from payer amort aportes (mes + 1)
      (step_saldo payer amort aportes mes 0) d = 0
    rw [hz]
    exact ih (mes + 1)

/-- C3 (counterexample): in the run with starting balance `-100`, rate 0,
term 2 and no extra payments, the month-1 row reports `balance_after = 0`
while the month-2 row reports `50 ≠ 0`: the zero does not persist. -/
theorem sac_clamp_not_idempotent_on_negative_balance :
    calculate_individual_sac_tables [⟨"Q", 0, -100⟩] 0 2 [] =
      .ok [("Q", [⟨"Q", 1, 0, -50, 0, -50⟩, ⟨"Q", 2, 50, -50, 0, -50⟩])] ∧
    (⟨"Q", 1, 0, -50, 0, -50⟩ : Row).saldo_devedor = 0 ∧
    (⟨"Q", 2, 50, -50, 0, -50⟩ : Row).saldo_devedor ≠ 0 := by
  refine ⟨?_, rfl, by norm_num⟩
  simp [calculate_individual_sac_tables, payer_rows, sac_rows, step_saldo,
    pre_clamp, aportes_mes, applyAportes]
  norm_num

/-- C3 (amended): once a payer's row reports `balance_after = 0`, every later
row of that payer also reports 0 — PROVIDED the payer's starting balance is
non-negative (so the fixed amortization is non-negative) and every extra
payment naming that payer has a non-negative (or NaN) amount.  Both provisos
are forced by counterexamples: a negative fixed amortization or a negative
extra payment pushes a clamped balance back above zero. -/
theorem sac_clamp_idempotent (payers : List Payer) (taxa : ℚ) (prazo : ℤ)
    (aportes : List Aporte) (p : Payer) (hp : p ∈ payers)
    (h0 : 0 ≤ p.saldo_devedor) (h1 : 1 ≤ prazo)
    (hval : ∀ a ∈ aportes, a.pagador = some p.payer →
      ∀ v, a.valor = PyFloat.num v → 0 ≤ v)
    (i j : ℕ) (ri rj : Row) (hij : i ≤ j)
    (hi : (payer_rows (taxa / 100 / 12) prazo aportes p)[i]? = some ri)
    (hj : (payer_rows (taxa / 100 / 12) prazo aportes p)[j]? = some rj)
    (hz : ri.saldo_devedor = 0) :
    calculate_individual_sac_tables payers taxa prazo aportes =
      .ok (payers.map fun q =>
        (q.payer, payer_rows (taxa / 100 / 12) prazo aportes q)) ∧
    rj.saldo_devedor = 0 := by
  have hq : (0 : ℚ) ≤ (prazo : ℚ) := by
    have : (0 : ℤ) ≤ prazo := by omega
    exact_mod_cast this
  have hamort : 0 ≤ p.saldo_devedor / (prazo : ℚ) := div_nonneg h0 hq
  constructor
  · unfold calculate_individual_sac_tables
    rw [if_neg (by omega : ¬(prazo = 0 ∧ payers ≠ []))]
  · unfold payer_rows at hi hj
    have hilen : i < prazo.toNat := by
      by_contra hc
      rw [List.getElem?_eq_none
        (by rw [sac_rows_length]; omega)] at hi
      exact Option.noConfusion hi
    have hjlen : j < prazo.toNat := by
      by_contra hc
      rw [List.getElem?_eq_none
        (by rw [sac_rows_length]; omega)] at hj
      exact Option.noConfusion hj
    have hi2 := sac_rows_getElem? p.payer (p.saldo_devedor / (prazo : ℚ))
      (taxa / 100 / 12) aportes prazo.toNat i 1 p.saldo_devedor hilen
    have hj2 := sac_rows_getElem? p.payer (p.saldo_devedor / (prazo : ℚ))
      (taxa / 100 / 12) aportes prazo.toNat j 1 p.saldo_devedor hjlen
    rw [hi2] at hi
    rw [hj2] at hj
    have hri := Option.some.inj hi
    have hrj := Option.some.inj hj
    have hzero : saldo_from p.payer (p.saldo_devedor / (prazo : ℚ)) aportes 1
        p.saldo_devedor (i + 1) = 0 := by
      rw [saldo_from_succ]
      rw [← hri] at hz
      exact hz
    have habs : ∀ d, saldo_from p.payer (p.saldo_devedor / (prazo : ℚ))
        aportes 1 p.saldo_devedor (i + 1 + d) = 0 := by
      intro d
      induction d with
      | zero => exact hzero
      | succ d ihd =>
        have hstep : i + 1 + (d + 1) = (i + 1 + d) + 1 := by omega
        rw [hstep, saldo_from_succ, ihd,
          step_saldo_zero p.payer _ aportes _ hamort
            (aportes_mes_valor_nonneg aportes p.payer hval _)]
    have hjz : saldo_from p.payer (p.saldo_devedor / (prazo : ℚ)) aportes 1
        p.saldo_devedor (j + 1) = 0 := by
      have : j + 1 = i + 1 + (j - i) := by omega
      rw [this]
      exact habs (j - i)
    rw [← hrj]
    show step_saldo p.payer (p.saldo_devedor / (prazo : ℚ)) aportes (1 + j)
      (saldo_from p.payer (p.saldo_devedor / (prazo : ℚ)) aportes 1
        p.saldo_devedor j) = 0
    rw [← saldo_from_succ]
    exact hjz

/-- Witness for C3 (amended): one payer with balance 100, rate 0, term 2; the
month-2 row has balance 0 and taking `i = j = 1` the theorem reports 0. -/
theorem sac_clamp_idempotent_witness :
    calculate_individual_sac_tables [⟨"Pagador 1", 0, 100⟩] 0 2 [] =
      .ok ([⟨"Pagador 1", 0, 100⟩].map fun q =>
        (q.payer, payer_rows (0 / 100 / 12) 2 [] q)) ∧
    (⟨"Pagador 1", 2, 0, 50, 0, 50⟩ : Row).saldo_devedor = 0 :=
  by
  have hrow : (payer_rows ((0 : ℚ) / 100 / 12) 2 []
      (⟨"Pagador 1", 0, 100⟩ : Payer))[1]? =
        some ⟨"Pagador 1", 2, 0, 50, 0, 50⟩ := by
    norm_num [payer_rows, sac_rows, step_saldo, pre_clamp, aportes_mes,
      applyAportes]
  exact sac_clamp_idempotent [⟨"Pagador 1", 0, 100⟩] 0 2 []
    ⟨"Pagador 1", 0, 100⟩ (by simp) (by norm_num) (by norm_num) (by simp) 1 1
    ⟨"Pagador 1", 2, 0, 50, 0, 50⟩ ⟨"Pagador 1", 2, 0, 50, 0, 50⟩
    (le_refl 1) hrow hrow rfl

/-- C4: `last_non_zero_month` returns the maximum `Mês_i` among the rows with
positive `Saldo Devedor`; when no row has a positive balance the pandas `max`
of the empty filtered series is NaN, the distinguished missing-value sentinel
(modelled as `⊥` of `WithBot ℕ`), never a numeric month. -/
theorem last_non_zero_month_spec (rows : List Row) :
    (last_non_zero_month rows = ⊥ ↔ ∀ r ∈ rows, ¬ 0 < r.saldo_devedor) ∧
    (∀ m : ℕ, last_non_zero_month rows = (m : WithBot ℕ) →
      (∃ r ∈ rows, 0 < r.saldo_devedor ∧ r.mes_i = m) ∧
      ∀ r ∈ rows, 0 < r.saldo_devedor → r.mes_i ≤ m) := by
  constructor
  · rw [last_non_zero_month, List.maximum_eq_bot, List.map_eq_nil_iff,
      List.filter_eq_nil_iff]
    simp
  · intro m hm
    rw [last_non_zero_month] at hm
    obtain ⟨hmem, hle⟩ := List.maximum_eq_coe_iff.mp hm
    constructor
    · obtain ⟨r, hr, hrm⟩ := List.mem_map.mp hmem
      have hf := List.mem_filter.mp hr
      exact ⟨r, hf.1, by simpa using hf.2, hrm⟩
    · intro r hr hpos
      exact hle r.mes_i (List.mem_map_of_mem _
        (List.mem_filter.mpr ⟨hr, by simpa using hpos⟩))

/-- Witness for C4: a two-row table whose only positive-balance row is month
1; `last_non_zero_month` is 1, month 1 is attained and is an upper bound. -/
theorem last_non_zero_month_spec_witness :
    (∃ r ∈ [(⟨"P", 1, 50, 50, 0, 50⟩ : Row), ⟨"P", 2, 0, 50, 0, 50⟩],
      0 < r.saldo_devedor ∧ r.mes_i = 1) ∧
    ∀ r ∈ [(⟨"P", 1, 50, 50, 0, 50⟩ : Row), ⟨"P", 2, 0, 50, 0, 50⟩],
      0 < r.saldo_devedor → r.mes_i ≤ 1 := by
  apply (last_non_zero_month_spec
    [⟨"P", 1, 50, 50, 0, 50⟩, ⟨"P", 2, 0, 50, 0, 50⟩]).2 1
  norm_num [last_non_zero_month, List.filter, List.maximum_singleton]

theorem fv_eq_nat_num_cast (m j : ℕ) :
    fv_eq_nat (PyFloat.num (m : ℚ)) j = decide (m = j) := by
  unfold fv_eq_nat
  simp [Nat.cast_inj]

theorem saldo_from_extra_eq (payer : String) (amort : ℚ)
    (aportes : List Aporte) (m : ℕ) (X : ℚ) :
    ∀ (i mes : ℕ) (saldo : ℚ), mes + i ≤ m →
      saldo_from payer amort
        (aportes ++ [⟨PyFloat.num (m : ℚ), some payer, PyFloat.num X⟩]) mes
          saldo i =
        saldo_from payer amort aportes mes saldo i := by
  intro i
  induction i with
  | zero => intro mes saldo _; rfl
  | succ i ih =>
    intro mes saldo hbound
    have hmes : aportes_mes
        (aportes ++ [⟨PyFloat.num (m : ℚ), some payer, PyFloat.num X⟩]) payer
          mes = aportes_mes aportes payer mes := by
      rw [aportes_mes_append]
      have hne : fv_eq_nat (PyFloat.num (m : ℚ)) mes = false := by
        rw [fv_eq_nat_num_cast]
        simp only [decide_eq_false_iff_not]
        omega
      unfold aportes_mes
      simp [hne]
    have hstep : step_saldo payer amort
        (aportes ++ [⟨PyFloat.num (m : ℚ), some payer, PyFloat.num X⟩]) mes
          saldo = step_saldo payer amort aportes mes saldo := by
      unfold step_saldo pre_clamp
      rw [hmes]
    show saldo_from payer amort _ (mes + 1) _ i = _
    rw [hstep]
    exact ih (mes + 1) _ (by omega)

theorem pre_clamp_at_extra (payer : String) (amort : ℚ)
    (aportes : List Aporte) (saldo0 X : ℚ) (m : ℕ) (h1 : 1 ≤ m) :
    pre_clamp_at payer amort
      (aportes ++ [⟨PyFloat.num (m : ℚ), some payer, PyFloat.num X⟩]) saldo0
        m =
      pre_clamp_at payer amort aportes saldo0 m - X := by
  unfold pre_clamp_at pre_clamp
  rw [saldo_from_extra_eq payer amort aportes m X (m - 1) 1 saldo0 (by omega)]
  rw [aportes_mes_append]
  have hself : aportes_mes
      [⟨PyFloat.num (m : ℚ), some payer, PyFloat.num X⟩] payer m =
        [⟨PyFloat.num (m : ℚ), some payer, PyFloat.num X⟩] := by
    unfold aportes_mes
    have ht : fv_eq_nat (PyFloat.num (m : ℚ)) m = true := by
      rw [fv_eq_nat_num_cast]
      simp
    have hpm : pagador_matches payer (some payer) = true := by
      unfold pagador_matches
      simp
    simp [List.filter, ht, hpm]
  rw [hself, applyAportes_append]
  rfl

/-- C5: adding one extra-payment entry `(month = m, payer_name = P,
amount = X)` with numeric `X` to the schedule lowers the pre-clamp balance the
loop computes at month `m` for payer `P` by exactly `X`, relative to the run
on the original schedule (earlier months are untouched because the entry only
matches month `m`). -/
theorem extra_payment_effect (p : Payer) (prazo : ℤ) (aportes : List Aporte)
    (m : ℕ) (X : ℚ) (h1 : 1 ≤ m) (h2 : (m : ℤ) ≤ prazo) :
    pre_clamp_at p.payer (p.saldo_devedor / (prazo : ℚ))
      (aportes ++ [⟨PyFloat.num (m : ℚ), some p.payer, PyFloat.num X⟩])
        p.saldo_devedor m =
      pre_clamp_at p.payer (p.saldo_devedor / (prazo : ℚ)) aportes
        p.saldo_devedor m - X :=
  pre_clamp_at_extra p.payer (p.saldo_devedor / (prazo : ℚ)) aportes
    p.saldo_devedor X m h1

/-- Witness for C5: the spec's concrete scenario — balance 100000, term 120,
extra payment of 10000 at month 6. -/
theorem extra_payment_effect_witness :
    pre_clamp_at "Pagador 1" ((100000 : ℚ) / ((120 : ℤ) : ℚ))
      ([] ++ [⟨PyFloat.num ((6 : ℕ) : ℚ), some "Pagador 1",
        PyFloat.num 10000⟩])
        100000 6 =
      pre_clamp_at "Pagador 1" ((100000 : ℚ) / ((120 : ℤ) : ℚ)) [] 100000 6 -
        10000 :=
  extra_payment_effect ⟨"Pagador 1", 50000, 100000⟩ 120 [] 6 10000
    (by norm_num) (by norm_num)

/-- C7: every emitted row satisfies
`installment = amortization + interest` exactly, with the interest computed
from the balance at the start of that month (the loop balance after `i`
steps, for the row at index `i`), before that month's amortization and extra
payments are subtracted. -/
theorem installment_decomposition (payers : List Payer) (taxa : ℚ)
    (prazo : ℤ) (aportes : List Aporte) (p : Payer) (i : ℕ) (r : Row)
    (hp : p ∈ payers) (hprazo : prazo ≠ 0)
    (hr : (payer_rows (taxa / 100 / 12) prazo aportes p)[i]? = some r) :
    calculate_individual_sac_tables payers taxa prazo aportes =
      .ok (payers.map fun q =>
        (q.payer, payer_rows (taxa / 100 / 12) prazo aportes q)) ∧
    r.prestacao = r.amortizacao + r.juros ∧
    r.juros = saldo_from p.payer (p.saldo_devedor / (prazo : ℚ)) aportes 1
      p.saldo_devedor i * (taxa / 100 / 12) ∧
    r.mes_i = i + 1 := by
  constructor
  · unfold calculate_individual_sac_tables
    rw [if_neg (fun hc => hprazo hc.1)]
  · unfold payer_rows at hr
    have hlen : i < prazo.toNat := by
      by_contra hc
      rw [List.getElem?_eq_none
        (by rw [sac_rows_length]; omega)] at hr
      exact Option.noConfusion hr
    rw [sac_rows_getElem? p.payer (p.saldo_devedor / (prazo : ℚ))
      (taxa / 100 / 12) aportes prazo.toNat i 1 p.saldo_devedor hlen] at hr
    have hri := Option.some.inj hr
    rw [← hri]
    refine ⟨rfl, rfl, ?_⟩
    show 1 + i = i + 1
    omega

/-- Witness for C7: the first row of a one-payer run (balance 100000, rate 0,
term 2). -/
theorem installment_decomposition_witness :
    calculate_individual_sac_tables [⟨"Pagador 1", 50000, 100000⟩] 0 2 [] =
      .ok ([⟨"Pagador 1", 50000, 100000⟩].map fun q =>
        (q.payer, payer_rows ((0 : ℚ) / 100 / 12) 2 [] q)) ∧
    (⟨"Pagador 1", 1, 50000, 50000, 0, 50000⟩ : Row).prestacao =
      (⟨"Pagador 1", 1, 50000, 50000, 0, 50000⟩ : Row).amortizacao +
      (⟨"Pagador 1", 1, 50000, 50000, 0, 50000⟩ : Row).juros ∧
    (⟨"Pagador 1", 1, 50000, 50000, 0, 50000⟩ : Row).juros =
      saldo_from "Pagador 1" ((100000 : ℚ) / ((2 : ℤ) : ℚ)) [] 1 100000 0 *
        ((0 : ℚ) / 100 / 12) ∧
    (⟨"Pagador 1", 1, 50000, 50000, 0, 50000⟩ : Row).mes_i = 0 + 1 := by
  apply installment_decomposition [⟨"Pagador 1", 50000, 100000⟩] 0 2
    [] ⟨"Pagador 1", 50000, 100000⟩ 0
  · simp
  · norm_num
  · norm_num [payer_rows, sac_rows, step_saldo, pre_clamp, aportes_mes,
      applyAportes]

/-- C8: an extra-payment entry whose payer name matches no payer in the
ledger (including a missing name), or whose amount is NaN, is a silent no-op:
the engine's entire output on the schedule with the entry equals its output
on the schedule without it, and no error is introduced. -/
theorem unmatched_or_nan_aporte_noop (payers : List Payer) (taxa : ℚ)
    (prazo : ℤ) (S1 S2 : List Aporte) (a : Aporte)
    (h : (∀ p ∈ payers, a.pagador ≠ some p.payer) ∨
      a.valor = PyFloat.nan) :
    calculate_individual_sac_tables payers taxa prazo (S1 ++ a :: S2) =
      calculate_individual_sac_tables payers taxa prazo (S1 ++ S2) := by
  unfold calculate_individual_sac_tables
  by_cases hc : prazo = 0 ∧ payers ≠ []
  · rw [if_pos hc, if_pos hc]
  · rw [if_neg hc, if_neg hc]
    congr 1
    apply List.map_congr_left
    intro p hp
    congr 1
    apply payer_rows_congr
    intro j _ _ s
    apply applyAportes_mes_drop
    rcases h with ha | hnan
    · left
      rw [pagador_matches_false p.payer a.pagador (ha p hp)]
      simp
    · right
      exact hnan

/-- Witness for C8: an entry naming the absent payer "Outro" leaves the
one-payer run unchanged. -/
theorem unmatched_or_nan_aporte_noop_witness :
    calculate_individual_sac_tables [⟨"Pagador 1", 50000, 100000⟩] 0 2
        ([] ++ ⟨PyFloat.num 1, some "Outro", PyFloat.num 10000⟩ :: []) =
      calculate_individual_sac_tables [⟨"Pagador 1", 50000, 100000⟩] 0 2
        ([] ++ []) :=
  unmatched_or_nan_aporte_noop [⟨"Pagador 1", 50000, 100000⟩] 0 2 [] []
    ⟨PyFloat.num 1, some "Outro", PyFloat.num 10000⟩
    (Or.inl (by simp))

/-- C10: an extra-payment entry whose `mes` is not exactly equal (under
Python's float-int comparison) to any integer month in `1..term_months`
(NaN, fractional, zero, negative, or beyond the term) never matches a loop
month, so the engine's output with the entry equals its output without it. -/
theorem out_of_range_month_aporte_noop (payers : List Payer) (taxa : ℚ)
    (prazo : ℤ) (S1 S2 : List Aporte) (a : Aporte)
    (h : ∀ m : ℕ, 1 ≤ m → (m : ℤ) ≤ prazo → fv_eq_nat a.mes m = false) :
    calculate_individual_sac_tables payers taxa prazo (S1 ++ a :: S2) =
      calculate_individual_sac_tables payers taxa prazo (S1 ++ S2) := by
  unfold calculate_individual_sac_tables
  by_cases hc : prazo = 0 ∧ payers ≠ []
  · rw [if_pos hc, if_pos hc]
  · rw [if_neg hc, if_neg hc]
    congr 1
    apply List.map_congr_left
    intro p _
    congr 1
    apply payer_rows_congr
    intro j hj1 hj2 s
    apply applyAportes_mes_drop
    left
    rw [h j hj1 hj2]
    simp

/-- Witness for C10: an entry at fractional month 5.5 (with a matching payer
name and numeric amount) leaves a term-3 run unchanged. -/
theorem out_of_range_month_aporte_noop_witness :
    calculate_individual_sac_tables [⟨"Pagador 1", 50000, 100000⟩] 0 3
        ([] ++ ⟨PyFloat.num (11 / 2), some "Pagador 1", PyFloat.num 100⟩ ::
          []) =
      calculate_individual_sac_tables [⟨"Pagador 1", 50000, 100000⟩] 0 3
        ([] ++ []) :=
  out_of_range_month_aporte_noop [⟨"Pagador 1", 50000, 100000⟩] 0 3 [] []
    ⟨PyFloat.num (11 / 2), some "Pagador 1", PyFloat.num 100⟩
    (by
      intro m h1 h2
      have hm3 : m ≤ 3 := by omega
      interval_cases m <;> norm_num [fv_eq_nat])

/-- C9: the amortization engine, with the session state passed explicitly,
returns the state unchanged: every payer's name, down payment and outstanding
balance, and the whole extra-payment schedule, are as before the call (the
translated body reads but never writes them). -/
theorem engine_preserves_session_state (s : SessionState) (taxa : ℚ)
    (prazo : ℤ) :
    (calculate_individual_sac_tables_st s taxa prazo).1.saldos_devedores.map
        Payer.payer = s.saldos_devedores.map Payer.payer ∧
    (calculate_individual_sac_tables_st s taxa prazo).1.saldos_devedores.map
        Payer.entrada = s.saldos_devedores.map Payer.entrada ∧
    (calculate_individual_sac_tables_st s taxa prazo).1.saldos_devedores.map
        Payer.saldo_devedor = s.saldos_devedores.map Payer.saldo_devedor ∧
    (calculate_individual_sac_tables_st s taxa prazo).1.aportes = s.aportes :=
  ⟨rfl, rfl, rfl, rfl⟩

end App
